import Mathlib

/-!
Verification of the Cadence path-capability value, the capability value
migration, the AST comment model, and the conformance check, embedded
shallowly from the Go sources.
-/

/-- Modelled from the spec: a path's domain is one of storage, public, private
(`common.PathDomain` is outside the provided sources). -/
inductive PathDomain
  | storage
  | pub
  | priv
  deriving DecidableEq, Repr

/-- A path value `/domain/identifier` (`interpreter.PathValue`). -/
structure PathValue where
  domain : PathDomain
  identifier : String
  deriving DecidableEq, Repr

/-- An account address (`common.Address`, an 8-byte word, embedded as `Nat`). -/
abbrev AddressValue := Nat

/-- Modelled from the spec: a reference's authorization is either unauthorized
or a set of entitlements (`interpreter.Authorization` is outside the provided
sources). -/
inductive Authorization
  | unauthorized
  | entitlements (es : List String)
  deriving DecidableEq, Repr

/-- Modelled from the spec: the kinds of primitive static types
(`interpreter.PrimitiveStaticType` is outside the provided sources); the
enumeration covers the kinds named by the spec: the primitives listed in the
value model, the number types, the path types, the primitive `Capability`
type, and the deprecated account types. -/
inductive PrimitiveStaticType
  | bool
  | void
  | address
  | metaType
  | block
  | string
  | character
  | capability
  | int
  | int8
  | int16
  | int32
  | int64
  | int128
  | int256
  | uint
  | uint8
  | uint16
  | uint32
  | uint64
  | uint128
  | uint256
  | word8
  | word16
  | word32
  | word64
  | fix64
  | ufix64
  | path
  | storagePath
  | capabilityPath
  | publicPath
  | privatePath
  | anyStruct
  | anyResource
  | never
  | authAccount
  | publicAccount
  deriving DecidableEq, Repr

/-- Modelled from the spec: the deprecated primitive static types are the
legacy account types kept only for migration (`IsDeprecated` is outside the
provided sources). -/
def PrimitiveStaticType.IsDeprecated : PrimitiveStaticType → Bool
  | .authAccount => true
  | .publicAccount => true
  | _ => false

/-- Modelled from the spec: the primitive static types whose semantic type is
a subtype of `Number` — the signed/unsigned integers of widths 8..256,
arbitrary-precision `Int`/`UInt`, words, and fixed-point numbers
(`sema.IsSubType` is outside the provided sources). -/
def PrimitiveStaticType.isNumberSubtype : PrimitiveStaticType → Bool
  | .int | .int8 | .int16 | .int32 | .int64 | .int128 | .int256
  | .uint | .uint8 | .uint16 | .uint32 | .uint64 | .uint128 | .uint256
  | .word8 | .word16 | .word32 | .word64
  | .fix64 | .ufix64 => true
  | _ => false

/-- Modelled from the spec: the primitive static types whose semantic type is
a subtype of `Path` (`sema.IsSubType` is outside the provided sources). -/
def PrimitiveStaticType.isPathSubtype : PrimitiveStaticType → Bool
  | .path | .storagePath | .capabilityPath | .publicPath | .privatePath => true
  | _ => false

/-- The storable static types (`interpreter.StaticType`): primitives,
optionals, variable- and constant-sized arrays, dictionaries, capability
types (whose optional borrow type is unrolled into a typed and an untyped
constructor), references, and nominal composite/interface types. -/
inductive StaticType
  | primitive (p : PrimitiveStaticType)
  | optional (t : StaticType)
  | variableArray (t : StaticType)
  | constantArray (t : StaticType) (size : Nat)
  | dictionary (k : StaticType) (v : StaticType)
  | capability (borrow : StaticType)
  | capabilityUntyped
  | reference (auth : Authorization) (referenced : StaticType)
  | composite (location : String) (qualifiedIdentifier : String)
  | interfaceT (location : String) (qualifiedIdentifier : String)
  deriving DecidableEq, Repr

/-- A reference static type (`interpreter.ReferenceStaticType`), the borrow
type carried by an id capability value. -/
structure ReferenceStaticType where
  authorization : Authorization
  referencedType : StaticType
  deriving DecidableEq, Repr

/-- View of a `ReferenceStaticType` as a `StaticType`. -/
def ReferenceStaticType.toStaticType (r : ReferenceStaticType) : StaticType :=
  StaticType.reference r.authorization r.referencedType

/-- `CanSkipCapabilityValueMigration`
(src/migrations/capcons/capabilitymigration.go lines 187-231): a static type
can be skipped by the capability migration when it is a container whose
parts can all be skipped, or a primitive that is neither `Capability` nor
deprecated and is one of the listed kinds or a number/path type. -/
def CanSkipCapabilityValueMigration : StaticType → Bool
  | .dictionary k v =>
    CanSkipCapabilityValueMigration k && CanSkipCapabilityValueMigration v
  | .variableArray t => CanSkipCapabilityValueMigration t
  | .constantArray t _ => CanSkipCapabilityValueMigration t
  | .optional t => CanSkipCapabilityValueMigration t
  | .capability _ => false
  | .capabilityUntyped => false
  | .primitive p =>
    match p with
    | .capability => false
    | .bool | .void | .address | .metaType | .block | .string | .character =>
      true
    | _ =>
      if !p.IsDeprecated && (p.isNumberSubtype || p.isPathSubtype) then
        true
      else
        false
  | _ => false

/-- Whether a static type transitively contains a capability type, written
from the spec's description of the pruning rule (the capability migration
skips containers whose element type transitively excludes `Capability`). -/
def staticTypeContainsCapability : StaticType → Bool
  | .dictionary k v =>
    staticTypeContainsCapability k || staticTypeContainsCapability v
  | .variableArray t => staticTypeContainsCapability t
  | .constantArray t _ => staticTypeContainsCapability t
  | .optional t => staticTypeContainsCapability t
  | .capability _ => true
  | .capabilityUntyped => true
  | .primitive p => p = PrimitiveStaticType.capability
  | .reference _ t => staticTypeContainsCapability t
  | _ => false

/-- The runtime values relevant to the capability migration
(`interpreter.Value`): nil, booleans, integers, strings, addresses, paths,
unsigned 64-bit integers, deprecated path capability values, and id
capability values. -/
inductive Value
  | nilV
  | boolV (b : Bool)
  | intV (n : Int)
  | stringV (s : String)
  | addressV (a : AddressValue)
  | pathV (p : PathValue)
  | uint64V (n : Nat)
  | pathCapability (borrowType : Option StaticType) (address : AddressValue)
      (path : PathValue)
  | idCapability (id : Nat) (address : AddressValue)
      (borrowType : ReferenceStaticType)
  deriving DecidableEq, Repr

/-- The deprecated `interpreter.PathCapabilityValue`
(src/runtime/interpreter/value_pathcapability.go lines 34-38): an optional
borrow type, a path, and an address. -/
structure PathCapabilityValue where
  BorrowType : Option StaticType
  Path : PathValue
  address : AddressValue
  deriving DecidableEq, Repr

/-- An address together with a path (`interpreter.AddressPath`). -/
structure AddressPath where
  Address : AddressValue
  Path : PathValue
  deriving DecidableEq, Repr

/-- `PathCapabilityValue.AddressPath`
(src/runtime/interpreter/value_pathcapability.go lines 290-295). -/
def PathCapabilityValue.AddressPath (v : PathCapabilityValue) : AddressPath :=
  { Address := v.address, Path := v.Path }

/-- The view of a `PathCapabilityValue` as a `Value`. -/
def PathCapabilityValue.toValue (v : PathCapabilityValue) : Value :=
  Value.pathCapability v.BorrowType v.address v.Path

/-- Modelled from the spec: the contents of storage, a finite map from
address and path to stored value, passed to invocations so that theorems can
quantify over storage contents. -/
abbrev Storage := List (AddressValue × PathValue × Value)

/-- Modelled from the spec: an invocation of a host function carries the
arguments and the current storage (`interpreter.Invocation` is outside the
provided sources; only the parts a capability member can observe are
modelled). -/
structure Invocation where
  arguments : List Value
  storage : Storage

/-- A member access result: either a bound host function or a plain value. -/
inductive MemberValue
  | boundFunction (f : Invocation → Value)
  | plain (v : Value)

/-- Modelled from the spec: the capability member names `borrow`, `check`,
`address`, `id` (the `sema` name constants are outside the provided
sources). -/
def CapabilityTypeBorrowFunctionName : String := "borrow"

/-- Modelled from the spec: see `CapabilityTypeBorrowFunctionName`. -/
def CapabilityTypeCheckFunctionName : String := "check"

/-- Modelled from the spec: see `CapabilityTypeBorrowFunctionName`. -/
def CapabilityTypeAddressFieldName : String := "address"

/-- Modelled from the spec: see `CapabilityTypeBorrowFunctionName`. -/
def CapabilityTypeIDFieldName : String := "id"

/-- Modelled from the spec: capability id 0 is reserved as the invalid id
(`interpreter.InvalidCapabilityID` is outside the provided sources). -/
def InvalidCapabilityID : Nat := 0

/-- `newBorrowFunction`
(src/runtime/interpreter/value_pathcapability.go lines 127-140): the
returned bound function ignores its invocation and returns `Nil` —
borrowing is never allowed on a deprecated path capability. -/
def PathCapabilityValue.newBorrowFunction (_v : PathCapabilityValue) :
    Invocation → Value :=
  fun _ => Value.nilV

/-- `newCheckFunction`
(src/runtime/interpreter/value_pathcapability.go lines 142-155): the
returned bound function ignores its invocation and returns `FalseValue`. -/
def PathCapabilityValue.newCheckFunction (_v : PathCapabilityValue) :
    Invocation → Value :=
  fun _ => Value.boolV false

/-- `PathCapabilityValue.GetMember`
(src/runtime/interpreter/value_pathcapability.go lines 157-183): dispatch on
the member name; `borrow` and `check` return bound functions, `address` the
capability's address, `id` the invalid capability id. -/
def PathCapabilityValue.GetMember (v : PathCapabilityValue) (name : String) :
    Option MemberValue :=
  if name = CapabilityTypeBorrowFunctionName then
    some (MemberValue.boundFunction (v.newBorrowFunction))
  else if name = CapabilityTypeCheckFunctionName then
    some (MemberValue.boundFunction (v.newCheckFunction))
  else if name = CapabilityTypeAddressFieldName then
    some (MemberValue.plain (Value.addressV v.address))
  else if name = CapabilityTypeIDFieldName then
    some (MemberValue.plain (Value.uint64V InvalidCapabilityID))
  else
    none

/-- Modelled from the spec: static-type equality is structural
(`StaticType.Equal` is outside the provided sources). -/
def StaticType.Equal (a b : StaticType) : Bool :=
  decide (a = b)

/-- Modelled from the spec: address equality is structural
(`AddressValue.Equal` is outside the provided sources). -/
def addressValueEqual (a b : AddressValue) : Bool :=
  decide (a = b)

/-- Modelled from the spec: path equality compares domain and identifier
(`PathValue.Equal` is outside the provided sources). -/
def pathValueEqual (a b : PathValue) : Bool :=
  decide (a = b)

/-- `PathCapabilityValue.Equal`
(src/runtime/interpreter/value_pathcapability.go lines 201-219): another
value is equal only when it is a path capability whose optional borrow type
matches, and whose address and path are equal. -/
def PathCapabilityValue.Equal (v : PathCapabilityValue) (other : Value) :
    Bool :=
  match other with
  | Value.pathCapability otherBorrowType otherAddress otherPath =>
    (match v.BorrowType, otherBorrowType with
     | none, none => true
     | none, some _ => false
     | some _, none => false
     | some a, some b => StaticType.Equal a b) &&
    addressValueEqual otherAddress v.address &&
    pathValueEqual otherPath v.Path
  | _ => false

/-- The i-th byte (big-endian, 8 bytes) of an address word. -/
def addressByte (n i : Nat) : Nat :=
  n / 256 ^ (7 - i) % 256

/-- The 8 big-endian bytes of an address word. -/
def addressBytes8 (n : Nat) : List Nat :=
  (List.range 8).map (addressByte n)

/-- Modelled from the spec: the dedicated, distinct CBOR tag numbers for
address values, path values, and deprecated path capability values (the tag
constants live outside the provided sources; the exact numbers are
immaterial to the claims, only their role as dedicated tags). -/
def CBORTagAddressValue : Nat := 145

/-- Modelled from the spec: see `CBORTagAddressValue`. -/
def CBORTagPathValue : Nat := 134

/-- Modelled from the spec: see `CBORTagAddressValue`. -/
def CBORTagPathCapabilityValue : Nat := 146

/-- Modelled from the spec: see `CBORTagAddressValue`; tag for static
types. -/
def CBORTagStaticType : Nat := 184

/-- CBOR encoding of a short text string: major type 3 head byte with the
length, then the bytes. -/
def cborShortTextString (s : String) : List Nat :=
  (0x60 + s.length) :: s.toList.map Char.toNat

/-- Modelled from the spec: a numeric discriminant for a path domain, used
by the path encoding. -/
def PathDomain.toNat : PathDomain → Nat
  | .storage => 1
  | .priv => 2
  | .pub => 3

/-- Modelled from the spec: `AddressValue.Encode` (outside the provided
sources) writes a dedicated tag followed by an 8-byte string. -/
def encodeAddressValue (a : AddressValue) : List Nat :=
  [0xd8, CBORTagAddressValue, 0x48] ++ addressBytes8 a

/-- Modelled from the spec: `PathValue.Encode` (outside the provided
sources) writes a dedicated tag followed by a 2-element array of domain and
identifier. -/
def encodePathValue (p : PathValue) : List Nat :=
  [0xd8, CBORTagPathValue, 0x82, p.domain.toNat] ++
    cborShortTextString p.identifier

/-- Modelled from the spec: `StaticType.Encode` (outside the provided
sources) writes a tagged representation of the static type; only its role
as the borrow-type encoding matters to the claims, so a simple tagged
structural encoding is used. -/
def StaticType.Encode : StaticType → List Nat
  | .primitive p => [0xd8, CBORTagStaticType, 0] ++ [p.toCtorIdx]
  | .optional t => [0xd8, CBORTagStaticType, 1] ++ t.Encode
  | .variableArray t => [0xd8, CBORTagStaticType, 2] ++ t.Encode
  | .constantArray t n => [0xd8, CBORTagStaticType, 3, n % 256] ++ t.Encode
  | .dictionary k v => [0xd8, CBORTagStaticType, 4] ++ k.Encode ++ v.Encode
  | .capability t => [0xd8, CBORTagStaticType, 5] ++ t.Encode
  | .capabilityUntyped => [0xd8, CBORTagStaticType, 6]
  | .reference _ t => [0xd8, CBORTagStaticType, 7] ++ t.Encode
  | .composite l q => [0xd8, CBORTagStaticType, 8] ++
      cborShortTextString l ++ cborShortTextString q
  | .interfaceT l q => [0xd8, CBORTagStaticType, 9] ++
      cborShortTextString l ++ cborShortTextString q

/-- The CBOR encoding of nil (`e.CBOR.EncodeNil`). -/
def cborNil : List Nat := [0xf6]

/-- `encodedPathCapabilityValueLength`
(src/runtime/interpreter/value_pathcapability.go line 307): the asserted
arity of the encoded array. -/
def encodedPathCapabilityValueLength : Nat := 3

/-- `PathCapabilityValue.Encode`
(src/runtime/interpreter/value_pathcapability.go lines 320-351): write the
raw bytes 0xd8, the path-capability tag, and the 3-element array head 0x83,
then the address, the path, and the borrow type (nil when absent). -/
def PathCapabilityValue.Encode (v : PathCapabilityValue) : List Nat :=
  [0xd8, CBORTagPathCapabilityValue, 0x83] ++
    encodeAddressValue v.address ++
    encodePathValue v.Path ++
    (match v.BorrowType with
     | none => cborNil
     | some t => t.Encode)

/-- A CBOR item tagged with a small tag number: byte 0xd8 then the tag, then
the content (spec-side description of the encoding shape). -/
def cborTagged (tag : Nat) (content : List Nat) : List Nat :=
  [0xd8, tag] ++ content

/-- A CBOR 3-element array: head byte 0x83 then the three element encodings
(spec-side description of the encoding shape). -/
def cborArray3 (a b c : List Nat) : List Nat :=
  [0x83] ++ a ++ b ++ c

/-- A storage key (`interpreter.StorageKey`): an address and a key string. -/
structure StorageKey where
  Address : AddressValue
  Key : String
  deriving DecidableEq, Repr

/-- Modelled from the spec: the `private/public path → (id, borrow type)`
mapping built by the link migration (`PathCapabilityMapping.Get` is outside
the provided sources), embedded as a function to an optional entry. -/
abbrev PathCapabilityMapping :=
  AddressPath → Option (Nat × ReferenceStaticType)

/-- Modelled from the spec: the `(storage path, borrow type id) → id`
mapping built by the link migration (`PathTypeCapabilityMapping.Get` is
outside the provided sources). -/
abbrev PathTypeCapabilityMapping :=
  AddressPath → String → Option Nat

/-- Modelled from the spec: the type identifier string of a static type
(`StaticType.ID` is outside the provided sources); a simple structural
rendering, used only as the key of the typed storage mapping. -/
def StaticType.ID : StaticType → String
  | .primitive p => toString p.toCtorIdx
  | .optional t => t.ID ++ "?"
  | .variableArray t => "[" ++ t.ID ++ "]"
  | .constantArray t n => "[" ++ t.ID ++ ";" ++ toString n ++ "]"
  | .dictionary k v => "Dictionary<" ++ k.ID ++ "," ++ v.ID ++ ">"
  | .capability t => "Capability<" ++ t.ID ++ ">"
  | .capabilityUntyped => "Capability"
  | .reference _ t => "&" ++ t.ID
  | .composite l q => l ++ "." ++ q
  | .interfaceT l q => "I." ++ l ++ "." ++ q

/-- `CapabilityValueMigration`
(src/migrations/capcons/capabilitymigration.go lines 48-53): the three
mapping tables; the reporter is modelled by returning the list of report
events the migration makes. -/
structure CapabilityValueMigration where
  PrivatePublicCapabilityMapping : PathCapabilityMapping
  StorageCapabilityMapping : PathTypeCapabilityMapping
  StorageCapabilityWithoutTypeMapping : PathCapabilityMapping

/-- The internal (unexpected) errors the migration can abort with. -/
inductive MigrationError
  | unexpectedNonReferenceBorrowType
  deriving DecidableEq, Repr

/-- The reporter events of `CapabilityMigrationReporter`
(src/migrations/capcons/capabilitymigration.go lines 29-44). -/
inductive ReportEvent
  | migratedPathCapability (accountAddress : AddressValue)
      (addressPath : AddressPath) (borrowType : ReferenceStaticType)
      (capabilityID : Nat)
  | missingCapabilityID (accountAddress : AddressValue)
      (addressPath : AddressPath)
  | missingBorrowType (accountAddress : AddressValue)
      (addressPath : AddressPath)
  deriving DecidableEq, Repr

/-- The tail of `migratePathCapabilityValue`
(src/migrations/capcons/capabilitymigration.go lines 160-181): assert that
the resolved borrow type is a reference static type (otherwise abort with an
unexpected error), build the new id capability from the mapped id, the old
capability's address, and that borrow type, and report the migration. -/
def migratePathCapabilityValueTail (accountAddress : AddressValue)
    (capabilityAddressPath : AddressPath)
    (oldCapabilityAddress : AddressValue) (capabilityID : Nat)
    (oldBorrowType : Option StaticType) :
    Except MigrationError (Option Value × List ReportEvent) :=
  match oldBorrowType with
  | some (StaticType.reference auth referenced) =>
    Except.ok
      (some (Value.idCapability capabilityID oldCapabilityAddress
        { authorization := auth, referencedType := referenced }),
       [ReportEvent.migratedPathCapability accountAddress
         capabilityAddressPath
         { authorization := auth, referencedType := referenced }
         capabilityID])
  | _ => Except.error MigrationError.unexpectedNonReferenceBorrowType

/-- `migratePathCapabilityValue`
(src/migrations/capcons/capabilitymigration.go lines 92-181): look up the
mapping selected by the path's domain; on a missing entry report
`MissingCapabilityID` and return no replacement; otherwise adopt the
controller's borrow type when the old capability lacks one and continue with
the shared tail. -/
def migratePathCapabilityValue (m : CapabilityValueMigration)
    (oldCapability : PathCapabilityValue) (storageKey : StorageKey) :
    Except MigrationError (Option Value × List ReportEvent) :=
  let capabilityAddressPath := oldCapability.AddressPath
  let oldBorrowType := oldCapability.BorrowType
  match capabilityAddressPath.Path.domain with
  | PathDomain.priv | PathDomain.pub =>
    match m.PrivatePublicCapabilityMapping capabilityAddressPath with
    | none =>
      Except.ok (none,
        [ReportEvent.missingCapabilityID storageKey.Address
          capabilityAddressPath])
    | some (capabilityID, controllerBorrowType) =>
      migratePathCapabilityValueTail storageKey.Address
        capabilityAddressPath oldCapability.address capabilityID
        (some (oldBorrowType.getD controllerBorrowType.toStaticType))
  | PathDomain.storage =>
    match oldBorrowType with
    | some bt =>
      match m.StorageCapabilityMapping capabilityAddressPath bt.ID with
      | none =>
        Except.ok (none,
          [ReportEvent.missingCapabilityID storageKey.Address
            capabilityAddressPath])
      | some capabilityID =>
        migratePathCapabilityValueTail storageKey.Address
          capabilityAddressPath oldCapability.address capabilityID
          (some bt)
    | none =>
      match m.StorageCapabilityWithoutTypeMapping capabilityAddressPath with
      | none =>
        Except.ok (none,
          [ReportEvent.missingCapabilityID storageKey.Address
            capabilityAddressPath])
      | some (capabilityID, controllerBorrowType) =>
        migratePathCapabilityValueTail storageKey.Address
          capabilityAddressPath oldCapability.address capabilityID
          (some controllerBorrowType.toStaticType)

/-- Whether a value is a deprecated path capability value (the type test on
line 85 of src/migrations/capcons/capabilitymigration.go). -/
def isPathCapabilityValue : Value → Bool
  | Value.pathCapability _ _ _ => true
  | _ => false

/-- `CapabilityValueMigration.Migrate`
(src/migrations/capcons/capabilitymigration.go lines 73-90): migrate path
capability values; every other value is returned unchanged (no replacement,
no events). -/
def CapabilityValueMigration.Migrate (m : CapabilityValueMigration)
    (storageKey : StorageKey) (value : Value) :
    Except MigrationError (Option Value × List ReportEvent) :=
  match value with
  | Value.pathCapability borrowType address path =>
    migratePathCapabilityValue m
      { BorrowType := borrowType, Path := path, address := address }
      storageKey
  | _ => Except.ok (none, [])

/-- Spec-side description of the mapping lookup of claim C2: the table is
selected by the path's domain, the key is the capability's address-path and,
for typed storage-domain capabilities, its borrow type id; the result is the
mapped id together with the controller-provided borrow type when the table
supplies one. -/
def specLookupCapabilityID (m : CapabilityValueMigration)
    (cap : PathCapabilityValue) : Option (Nat × Option StaticType) :=
  match cap.Path.domain with
  | PathDomain.priv | PathDomain.pub =>
    (m.PrivatePublicCapabilityMapping cap.AddressPath).map
      (fun e => (e.1, some e.2.toStaticType))
  | PathDomain.storage =>
    match cap.BorrowType with
    | some bt =>
      (m.StorageCapabilityMapping cap.AddressPath bt.ID).map
        (fun i => (i, none))
    | none =>
      (m.StorageCapabilityWithoutTypeMapping cap.AddressPath).map
        (fun e => (e.1, some e.2.toStaticType))

/-- Spec-side description of the resolved borrow type of claim C2: the old
capability's own borrow type when present, and otherwise the controller's. -/
def specResolvedBorrowType (old controller : Option StaticType) :
    Option StaticType :=
  match old with
  | some t => some t
  | none => controller

/-- Whether a static type is a reference static type. -/
def StaticType.isReference : StaticType → Bool
  | StaticType.reference _ _ => true
  | _ => false

/-- `bytes.HasPre` test over byte lists: whether the first list starts with
the second (the standard-library helper used by the comment model). -/
def leadsWith : List Char → List Char → Bool
  | _, [] => true
  | [], _ :: _ => false
  | c :: cs, p :: ps => c = p && leadsWith cs ps

/-- A source comment (`ast.Comment`, src/runtime/ast/comments.go lines
13-15), carrying its raw source bytes. -/
structure Comment where
  source : List Char

/-- The opening characters of a block comment
(src/runtime/ast/comments.go line 25). -/
def blockCommentStringLead : List Char := ['/', '*']

/-- The opening characters of a block documentation comment
(src/runtime/ast/comments.go line 24). -/
def blockCommentDocStringLead : List Char := ['/', '*', '*']

/-- The opening characters of a line documentation comment
(src/runtime/ast/comments.go line 26). -/
def lineCommentDocStringLead : List Char := ['/', '/', '/']

/-- `Comment.Multiline` (src/runtime/ast/comments.go lines 30-32). -/
def Comment.Multiline (c : Comment) : Bool :=
  leadsWith c.source blockCommentStringLead

/-- `Comment.Doc` (src/runtime/ast/comments.go lines 34-40). -/
def Comment.Doc (c : Comment) : Bool :=
  if c.Multiline then
    leadsWith c.source blockCommentDocStringLead
  else
    leadsWith c.source lineCommentDocStringLead

/-- Modelled from the spec: the semantic types needed by the conformance
claims — primitives, nominal composites with their conformed interfaces, and
intersection (restricted) types (the `sema` type model is outside the
provided sources; claims C4 and C8 are decided by checker code whose only
trace under src/ is its tests). -/
inductive SemaType
  | primitive (name : String)
  | compositeT (qualifiedIdentifier : String) (conformances : List String)
  | intersection (interfaces : List String)
  deriving DecidableEq, Repr

/-- Modelled from the spec: subtyping is reflexive, and a composite is a
subtype of an intersection type when it conforms to every interface of the
intersection (the checker's `IsSubType` is outside the provided sources). -/
def semaIsSubType (a b : SemaType) : Bool :=
  decide (a = b) ||
  (match a, b with
   | SemaType.compositeT _ cs, SemaType.intersection is2 =>
     is2.all (fun i => cs.contains i)
   | _, _ => false)

/-- A function parameter: an argument label, a parameter name, and a type. -/
structure Parameter where
  label : String
  name : String
  paramType : SemaType
  deriving DecidableEq, Repr

/-- The kind of an interface or composite member declaration. -/
inductive DeclarationKind
  | function
  | event
  deriving DecidableEq, Repr

/-- A member declaration of a composite or interface. -/
structure Member where
  name : String
  kind : DeclarationKind
  parameters : List Parameter
  returnType : SemaType
  hasDefaultImplementation : Bool
  deriving DecidableEq, Repr

/-- The checker errors needed by the conformance claims. -/
inductive CheckerError
  | conformanceError (memberName : String)
  deriving DecidableEq, Repr

/-- Modelled from the spec: parameter lists match when they have the same
length and pairwise identical argument labels and parameter types —
parameter names may differ, and parameter types are invariant. -/
def parametersMatch (ips cps : List Parameter) : Bool :=
  decide (ips.length = cps.length) &&
  (List.zip ips cps).all
    (fun pq => pq.1.label = pq.2.label && pq.1.paramType = pq.2.paramType)

/-- Modelled from the spec: a composite member satisfies an interface member
when the parameter lists match and its return type is a subtype of the
interface member's return type. -/
def memberSatisfies (im cm : Member) : Bool :=
  parametersMatch im.parameters cm.parameters &&
  semaIsSubType cm.returnType im.returnType

/-- Modelled from the spec: the conformance check of one interface member
against a composite's members — events are exempt; otherwise the composite
must declare a member of the same name that satisfies the interface member,
or the interface must supply a default, and each failure yields one
`Conformance` error. -/
def checkMemberConformance (compositeMembers : List Member) (im : Member) :
    List CheckerError :=
  if im.kind = DeclarationKind.event then
    []
  else
    match compositeMembers.find? (fun cm => cm.name = im.name) with
    | some cm =>
      if memberSatisfies im cm then
        []
      else
        [CheckerError.conformanceError im.name]
    | none =>
      if im.hasDefaultImplementation then
        []
      else
        [CheckerError.conformanceError im.name]

/-- Modelled from the spec: the conformance check of a composite against all
members of a conformed interface, accumulating the per-member errors. -/
def checkConformance (compositeMembers interfaceMembers : List Member) :
    List CheckerError :=
  (interfaceMembers.map (checkMemberConformance compositeMembers)).flatten

/-- A concrete reference type `&Foo` used by witnesses. -/
def exampleReferenceType : ReferenceStaticType :=
  { authorization := Authorization.unauthorized,
    referencedType := StaticType.composite "0x1" "Foo" }

/-- The concrete path `/public/x` used by witnesses. -/
def examplePath : PathValue :=
  { domain := PathDomain.pub, identifier := "x" }

/-- A concrete path capability `(0x1, /public/x, &Foo)` used by witnesses. -/
def exampleCap : PathCapabilityValue :=
  { BorrowType := some exampleReferenceType.toStaticType,
    Path := examplePath,
    address := 1 }

/-- A concrete storage key under account `0x1` used by witnesses. -/
def exampleStorageKey : StorageKey :=
  { Address := 1, Key := "public" }

/-- A concrete migration whose private/public mapping sends
`(0x1, /public/x)` to `(42, &Foo)` and whose other tables are empty. -/
def exampleMigration : CapabilityValueMigration :=
  { PrivatePublicCapabilityMapping := fun ap =>
      if ap = { Address := 1, Path := examplePath } then
        some (42, exampleReferenceType)
      else
        none,
    StorageCapabilityMapping := fun _ _ => none,
    StorageCapabilityWithoutTypeMapping := fun _ => none }

/-- A concrete migration with no mapping entries at all. -/
def exampleEmptyMigration : CapabilityValueMigration :=
  { PrivatePublicCapabilityMapping := fun _ => none,
    StorageCapabilityMapping := fun _ _ => none,
    StorageCapabilityWithoutTypeMapping := fun _ => none }

/-- A concrete storage-domain path capability with a non-reference borrow
type, used by the witness of the abort claim. -/
def exampleBadCap : PathCapabilityValue :=
  { BorrowType := some (StaticType.primitive PrimitiveStaticType.bool),
    Path := { domain := PathDomain.storage, identifier := "x" },
    address := 1 }

/-- A concrete migration whose typed storage mapping answers every query,
used by the witness of the abort claim. -/
def exampleBadMigration : CapabilityValueMigration :=
  { PrivatePublicCapabilityMapping := fun _ => none,
    StorageCapabilityMapping := fun _ _ => some 7,
    StorageCapabilityWithoutTypeMapping := fun _ => none }

/-- A concrete resource type `R` conforming to interface `RI`. -/
def exampleResourceType : SemaType :=
  SemaType.compositeT "R" ["RI"]

/-- The intersection type of the single interface `RI`. -/
def exampleIntersectionType : SemaType :=
  SemaType.intersection ["RI"]

/-- Claim C1: for every deprecated path capability value, regardless of its
borrow type and regardless of storage contents, invoking its `borrow` member
returns nil and invoking its `check` member returns false. -/
theorem pathCapability_borrow_nil_check_false (v : PathCapabilityValue)
    (inv : Invocation) :
    v.GetMember CapabilityTypeBorrowFunctionName =
      some (MemberValue.boundFunction (v.newBorrowFunction)) ∧
    v.newBorrowFunction inv = Value.nilV ∧
    v.GetMember CapabilityTypeCheckFunctionName =
      some (MemberValue.boundFunction (v.newCheckFunction)) ∧
    v.newCheckFunction inv = Value.boolV false := by
  refine ⟨?_, rfl, ?_, rfl⟩ <;>
    simp [PathCapabilityValue.GetMember, CapabilityTypeBorrowFunctionName,
      CapabilityTypeCheckFunctionName]

/-- Claim C9: for every comment, `Multiline` holds exactly when the source
starts with the block-comment opener, and `Doc` holds exactly when either
the comment is multiline and starts with the block documentation opener, or
it is not multiline and starts with the line documentation opener. -/
theorem comment_multiline_doc_classification (c : Comment) :
    (c.Multiline = true ↔ leadsWith c.source ['/', '*'] = true) ∧
    (c.Doc = true ↔
      ((c.Multiline = true ∧ leadsWith c.source ['/', '*', '*'] = true) ∨
       (c.Multiline = false ∧ leadsWith c.source ['/', '/', '/'] = true))) := by
  constructor
  · simp [Comment.Multiline, blockCommentStringLead]
  · cases h : c.Multiline with
    | true => simp [Comment.Doc, h, blockCommentDocStringLead]
    | false => simp [Comment.Doc, h, lineCommentDocStringLead]

/-- Claim C10: equality of a deprecated path capability value with any other
value holds exactly when the other value is also a path capability value
whose optional borrow type matches (both absent, or both present and equal),
and whose address and path are equal; in particular a path capability is
never equal to an id capability or any other value kind. -/
theorem pathCapability_equal_iff (v : PathCapabilityValue) (other : Value) :
    v.Equal other = true ↔
      other = Value.pathCapability v.BorrowType v.address v.Path := by
  cases other with
  | pathCapability otherBorrowType otherAddress otherPath =>
    cases hv : v.BorrowType with
    | none =>
      cases otherBorrowType <;>
        simp [PathCapabilityValue.Equal, hv, addressValueEqual,
          pathValueEqual]
    | some a =>
      cases otherBorrowType with
      | none =>
        simp [PathCapabilityValue.Equal, hv, addressValueEqual,
          pathValueEqual]
      | some b =>
        simp [PathCapabilityValue.Equal, hv, StaticType.Equal,
          addressValueEqual, pathValueEqual, and_assoc]
        exact fun _ _ => ⟨fun h => h.symm, fun h => h.symm⟩
  | nilV => simp [PathCapabilityValue.Equal]
  | boolV b => simp [PathCapabilityValue.Equal]
  | intV n => simp [PathCapabilityValue.Equal]
  | stringV s => simp [PathCapabilityValue.Equal]
  | addressV a => simp [PathCapabilityValue.Equal]
  | pathV p => simp [PathCapabilityValue.Equal]
  | uint64V n => simp [PathCapabilityValue.Equal]
  | idCapability i a r => simp [PathCapabilityValue.Equal]

/-- Claim C7: encoding a deprecated path capability value writes the
dedicated CBOR tag for path capabilities followed by a 3-element array of
the address, the path, and the borrow type, where a missing borrow type is
encoded as nil; the asserted encoded length is 3. -/
theorem pathCapability_encode_shape (v : PathCapabilityValue) :
    v.Encode =
      cborTagged CBORTagPathCapabilityValue
        (cborArray3 (encodeAddressValue v.address) (encodePathValue v.Path)
          (match v.BorrowType with
           | none => cborNil
           | some t => t.Encode)) ∧
    encodedPathCapabilityValueLength = 3 := by
  refine ⟨?_, rfl⟩
  cases hv : v.BorrowType <;>
    simp [PathCapabilityValue.Encode, hv, cborTagged, cborArray3]

/-- The migration of one path capability, characterised through the
spec-side lookup: a missing entry reports `MissingCapabilityID`, a present
entry continues with the mapped id and the resolved borrow type. -/
theorem migratePathCapabilityValue_eq_spec (m : CapabilityValueMigration)
    (k : StorageKey) (cap : PathCapabilityValue) :
    migratePathCapabilityValue m cap k =
      (match specLookupCapabilityID m cap with
       | none =>
         Except.ok (none,
           [ReportEvent.missingCapabilityID k.Address cap.AddressPath])
       | some (capabilityID, controller) =>
         migratePathCapabilityValueTail k.Address cap.AddressPath
           cap.address capabilityID
           (specResolvedBorrowType cap.BorrowType controller)) := by
  obtain ⟨bt, ⟨d, ident⟩, a⟩ := cap
  cases d with
  | pub =>
    rcases hm : m.PrivatePublicCapabilityMapping
        { Address := a,
          Path := { domain := PathDomain.pub, identifier := ident } } with
      _ | ⟨i, r⟩ <;>
      cases bt <;>
      simp [migratePathCapabilityValue, specLookupCapabilityID,
        specResolvedBorrowType, PathCapabilityValue.AddressPath, hm]
  | priv =>
    rcases hm : m.PrivatePublicCapabilityMapping
        { Address := a,
          Path := { domain := PathDomain.priv, identifier := ident } } with
      _ | ⟨i, r⟩ <;>
      cases bt <;>
      simp [migratePathCapabilityValue, specLookupCapabilityID,
        specResolvedBorrowType, PathCapabilityValue.AddressPath, hm]
  | storage =>
    cases bt with
    | some t =>
      rcases hm : m.StorageCapabilityMapping
          { Address := a,
            Path := { domain := PathDomain.storage, identifier := ident } }
          t.ID with
        _ | i <;>
        simp [migratePathCapabilityValue, specLookupCapabilityID,
          specResolvedBorrowType, PathCapabilityValue.AddressPath, hm]
    | none =>
      rcases hm : m.StorageCapabilityWithoutTypeMapping
          { Address := a,
            Path := { domain := PathDomain.storage, identifier := ident } } with
        _ | ⟨i, r⟩ <;>
        simp [migratePathCapabilityValue, specLookupCapabilityID,
          specResolvedBorrowType, PathCapabilityValue.AddressPath, hm]

/-- Claim C2: for every deprecated path capability processed by the
capability migration, a missing entry in the mapping table selected by the
path's domain (keyed also by the borrow type id for typed storage-domain
capabilities) yields no replacement and exactly one `MissingCapabilityID`
event; a present entry whose resolved borrow type (the old capability's own,
otherwise the controller's) is a reference yields the id capability built
from the mapped id, the old capability's address, and that borrow type,
together with one `MigratedPathCapability` event. -/
theorem capabilityMigration_lookup_behavior (m : CapabilityValueMigration)
    (k : StorageKey) (cap : PathCapabilityValue) :
    (specLookupCapabilityID m cap = none →
      migratePathCapabilityValue m cap k =
        Except.ok (none,
          [ReportEvent.missingCapabilityID k.Address cap.AddressPath])) ∧
    (∀ capID controller auth referenced,
      specLookupCapabilityID m cap = some (capID, controller) →
      specResolvedBorrowType cap.BorrowType controller =
        some (StaticType.reference auth referenced) →
      migratePathCapabilityValue m cap k =
        Except.ok
          (some (Value.idCapability capID cap.address
            { authorization := auth, referencedType := referenced }),
           [ReportEvent.migratedPathCapability k.Address cap.AddressPath
             { authorization := auth, referencedType := referenced }
             capID])) := by
  constructor
  · intro h
    rw [migratePathCapabilityValue_eq_spec, h]
  · intro capID controller auth referenced h1 h2
    rw [migratePathCapabilityValue_eq_spec, h1]
    simp [migratePathCapabilityValueTail, h2]

/-- Claim C5: if, during the migration of a path capability for which a
mapping entry exists, the resolved borrow type is not a reference static
type, the migration aborts with an internal (unexpected) error instead of
reporting an event or producing a replacement value. -/
theorem capabilityMigration_nonreference_borrow_aborts
    (m : CapabilityValueMigration) (k : StorageKey)
    (cap : PathCapabilityValue) (capID : Nat)
    (controller : Option StaticType) (t : StaticType)
    (h1 : specLookupCapabilityID m cap = some (capID, controller))
    (h2 : specResolvedBorrowType cap.BorrowType controller = some t)
    (h3 : t.isReference = false) :
    migratePathCapabilityValue m cap k =
      Except.error MigrationError.unexpectedNonReferenceBorrowType := by
  rw [migratePathCapabilityValue_eq_spec, h1]
  simp only [migratePathCapabilityValueTail, h2]
  cases t <;> simp_all [StaticType.isReference]

/-- A successful replacement produced by the path-capability migration is
never itself a path capability value. -/
theorem migratePathCapabilityValue_result_not_path_capability
    (m : CapabilityValueMigration) (k : StorageKey)
    (cap : PathCapabilityValue) (newValue : Value)
    (events : List ReportEvent)
    (h : migratePathCapabilityValue m cap k =
      Except.ok (some newValue, events)) :
    isPathCapabilityValue newValue = false := by
  rw [migratePathCapabilityValue_eq_spec] at h
  rcases hl : specLookupCapabilityID m cap with _ | ⟨i, ctrl⟩ <;>
    rw [hl] at h
  · simp at h
  · simp only [migratePathCapabilityValueTail] at h
    rcases hr : specResolvedBorrowType cap.BorrowType ctrl with _ | t <;>
      rw [hr] at h
    · simp at h
    · cases t <;> simp at h
      obtain ⟨h1, h2⟩ := h
      simp [← h1, isPathCapabilityValue]

/-- Claim C3: `Migrate` returns no replacement and no events for every value
that is not a deprecated path capability value — in particular for any value
a successful first migration produced — so a second run of the capability
migration leaves every migrated value unchanged. -/
theorem capabilityMigration_idempotent (m m2 : CapabilityValueMigration)
    (k k2 : StorageKey) :
    (∀ value, isPathCapabilityValue value = false →
      m.Migrate k value = Except.ok (none, [])) ∧
    (∀ cap newValue events,
      migratePathCapabilityValue m2 cap k2 =
        Except.ok (some newValue, events) →
      m.Migrate k newValue = Except.ok (none, [])) := by
  constructor
  · intro value h
    cases value <;> simp_all [isPathCapabilityValue,
      CapabilityValueMigration.Migrate]
  · intro cap newValue events h
    have hnp := migratePathCapabilityValue_result_not_path_capability
      m2 k2 cap newValue events h
    cases newValue <;> simp_all [isPathCapabilityValue,
      CapabilityValueMigration.Migrate]

/-- Claim C6: `CanSkipCapabilityValueMigration` returns true only for static
types that transitively contain no capability type; it returns false for
every capability static type and for the primitive `Capability` type,
recurses through dictionary key and value types, array element types and
optional inner types, and returns true for `Bool`, `Void`, `Address`,
`MetaType`, `Block`, `String`, `Character`, and the non-deprecated number
and path types. -/
theorem canSkip_capability_migration_correct :
    (∀ t, CanSkipCapabilityValueMigration t = true →
      staticTypeContainsCapability t = false) ∧
    (∀ b, CanSkipCapabilityValueMigration (StaticType.capability b) = false) ∧
    CanSkipCapabilityValueMigration StaticType.capabilityUntyped = false ∧
    CanSkipCapabilityValueMigration
      (StaticType.primitive PrimitiveStaticType.capability) = false ∧
    (∀ k v, CanSkipCapabilityValueMigration (StaticType.dictionary k v) =
      (CanSkipCapabilityValueMigration k &&
        CanSkipCapabilityValueMigration v)) ∧
    (∀ t, CanSkipCapabilityValueMigration (StaticType.variableArray t) =
      CanSkipCapabilityValueMigration t) ∧
    (∀ t n, CanSkipCapabilityValueMigration (StaticType.constantArray t n) =
      CanSkipCapabilityValueMigration t) ∧
    (∀ t, CanSkipCapabilityValueMigration (StaticType.optional t) =
      CanSkipCapabilityValueMigration t) ∧
    CanSkipCapabilityValueMigration
      (StaticType.primitive PrimitiveStaticType.bool) = true ∧
    CanSkipCapabilityValueMigration
      (StaticType.primitive PrimitiveStaticType.void) = true ∧
    CanSkipCapabilityValueMigration
      (StaticType.primitive PrimitiveStaticType.address) = true ∧
    CanSkipCapabilityValueMigration
      (StaticType.primitive PrimitiveStaticType.metaType) = true ∧
    CanSkipCapabilityValueMigration
      (StaticType.primitive PrimitiveStaticType.block) = true ∧
    CanSkipCapabilityValueMigration
      (StaticType.primitive PrimitiveStaticType.string) = true ∧
    CanSkipCapabilityValueMigration
      (StaticType.primitive PrimitiveStaticType.character) = true ∧
    (∀ p, PrimitiveStaticType.IsDeprecated p = false →
      (p.isNumberSubtype || p.isPathSubtype) = true →
      CanSkipCapabilityValueMigration (StaticType.primitive p) = true) := by
  refine ⟨?_, fun b => rfl, rfl, rfl, fun k v => rfl, fun t => rfl,
    fun t n => rfl, fun t => rfl, rfl, rfl, rfl, rfl, rfl, rfl, rfl, ?_⟩
  · intro t
    induction t with
    | primitive p =>
      cases p <;> simp [CanSkipCapabilityValueMigration,
        staticTypeContainsCapability]
    | optional t ih =>
      simp [CanSkipCapabilityValueMigration, staticTypeContainsCapability]
      exact ih
    | variableArray t ih =>
      simp [CanSkipCapabilityValueMigration, staticTypeContainsCapability]
      exact ih
    | constantArray t n ih =>
      simp [CanSkipCapabilityValueMigration, staticTypeContainsCapability]
      exact ih
    | dictionary k v ihk ihv =>
      simp [CanSkipCapabilityValueMigration, staticTypeContainsCapability]
      intro hk hv
      exact ⟨ihk hk, ihv hv⟩
    | capability b ih =>
      simp [CanSkipCapabilityValueMigration]
    | capabilityUntyped =>
      simp [CanSkipCapabilityValueMigration]
    | reference auth t ih =>
      simp [CanSkipCapabilityValueMigration]
    | composite l q =>
      simp [CanSkipCapabilityValueMigration]
    | interfaceT l q =>
      simp [CanSkipCapabilityValueMigration]
  · intro p hd hnp
    cases p <;> simp_all [CanSkipCapabilityValueMigration,
      PrimitiveStaticType.IsDeprecated, PrimitiveStaticType.isNumberSubtype,
      PrimitiveStaticType.isPathSubtype]

/-- Witness for claim C6 at concrete types: `Int` can be skipped, a skippable
optional of `Bool` contains no capability. -/
theorem canSkip_capability_migration_correct_witness :
    CanSkipCapabilityValueMigration
      (StaticType.primitive PrimitiveStaticType.int) = true ∧
    staticTypeContainsCapability
      (StaticType.optional (StaticType.primitive PrimitiveStaticType.bool)) =
      false :=
  ⟨canSkip_capability_migration_correct.2.2.2.2.2.2.2.2.2.2.2.2.2.2.2
      PrimitiveStaticType.int (by decide) (by decide),
   canSkip_capability_migration_correct.1
      (StaticType.optional (StaticType.primitive PrimitiveStaticType.bool))
      (by decide)⟩

/-- Witness for claim C2: migrating `(0x1, /public/x, &Foo)` under the
mapping `/public/x → (42, &Foo)` produces the id capability
`(42, 0x1, &Foo)` with one `MigratedPathCapability` event, and under the
empty mapping it is unchanged with exactly one `MissingCapabilityID`
event. -/
theorem capabilityMigration_lookup_behavior_witness :
    migratePathCapabilityValue exampleMigration exampleCap
      exampleStorageKey =
      Except.ok
        (some (Value.idCapability 42 exampleCap.address
          exampleReferenceType),
         [ReportEvent.migratedPathCapability 1 exampleCap.AddressPath
           exampleReferenceType 42]) ∧
    migratePathCapabilityValue exampleEmptyMigration exampleCap
      exampleStorageKey =
      Except.ok (none,
        [ReportEvent.missingCapabilityID 1 exampleCap.AddressPath]) :=
  ⟨(capabilityMigration_lookup_behavior exampleMigration exampleStorageKey
      exampleCap).2 42 (some exampleReferenceType.toStaticType)
      Authorization.unauthorized (StaticType.composite "0x1" "Foo")
      (by decide) (by decide),
   (capabilityMigration_lookup_behavior exampleEmptyMigration
      exampleStorageKey exampleCap).1 (by decide)⟩

/-- Witness for claim C3: a non-capability value and a freshly migrated id
capability are both left unchanged by `Migrate`. -/
theorem capabilityMigration_idempotent_witness :
    exampleEmptyMigration.Migrate exampleStorageKey (Value.intV 1) =
      Except.ok (none, []) ∧
    exampleEmptyMigration.Migrate exampleStorageKey
      (Value.idCapability 42 1 exampleReferenceType) =
      Except.ok (none, []) :=
  ⟨(capabilityMigration_idempotent exampleEmptyMigration exampleMigration
      exampleStorageKey exampleStorageKey).1 (Value.intV 1) rfl,
   (capabilityMigration_idempotent exampleEmptyMigration exampleMigration
      exampleStorageKey exampleStorageKey).2 exampleCap
      (Value.idCapability 42 1 exampleReferenceType)
      [ReportEvent.migratedPathCapability 1 exampleCap.AddressPath
        exampleReferenceType 42]
      rfl⟩

/-- Witness for claim C5: a storage-domain capability with the non-reference
borrow type `Bool` and a matching typed mapping entry makes the migration
abort with the unexpected-non-reference-borrow-type error. -/
theorem capabilityMigration_nonreference_borrow_aborts_witness :
    migratePathCapabilityValue exampleBadMigration exampleBadCap
      exampleStorageKey =
      Except.error MigrationError.unexpectedNonReferenceBorrowType :=
  capabilityMigration_nonreference_borrow_aborts exampleBadMigration
    exampleStorageKey exampleBadCap 7 none
    (StaticType.primitive PrimitiveStaticType.bool)
    (by decide) (by decide) (by decide)

/-- A parameter list matches itself. -/
theorem parametersMatch_refl (ps : List Parameter) :
    parametersMatch ps ps = true := by
  induction ps with
  | nil => rfl
  | cons p ps ih =>
    simp [parametersMatch] at ih ⊢
    exact ih

/-- Subtyping is reflexive. -/
theorem semaIsSubType_refl (t : SemaType) : semaIsSubType t t = true := by
  simp [semaIsSubType]

/-- Claim C4: checking a composite member against an interface member —
identical argument labels and parameter types with a different parameter
name are accepted; a strict subtype or strict supertype parameter type is
rejected with exactly one `Conformance` error (parameter types are
invariant); a return type that is a subtype of the interface's is accepted,
while a strict supertype return type is rejected with exactly one
`Conformance` error. -/
theorem conformance_function_subtyping :
    (∀ (nm lbl pname1 pname2 : String) (pt rt : SemaType),
      checkMemberConformance
        [{ name := nm, kind := DeclarationKind.function,
           parameters := [{ label := lbl, name := pname2, paramType := pt }],
           returnType := rt, hasDefaultImplementation := false }]
        { name := nm, kind := DeclarationKind.function,
          parameters := [{ label := lbl, name := pname1, paramType := pt }],
          returnType := rt, hasDefaultImplementation := false } = []) ∧
    (∀ (nm lbl pn : String) (pt1 pt2 rt : SemaType),
      pt1 ≠ pt2 →
      (semaIsSubType pt1 pt2 = true ∨ semaIsSubType pt2 pt1 = true) →
      checkMemberConformance
        [{ name := nm, kind := DeclarationKind.function,
           parameters := [{ label := lbl, name := pn, paramType := pt2 }],
           returnType := rt, hasDefaultImplementation := false }]
        { name := nm, kind := DeclarationKind.function,
          parameters := [{ label := lbl, name := pn, paramType := pt1 }],
          returnType := rt, hasDefaultImplementation := false } =
        [CheckerError.conformanceError nm]) ∧
    (∀ (nm : String) (ps : List Parameter) (rt1 rt2 : SemaType),
      semaIsSubType rt2 rt1 = true →
      checkMemberConformance
        [{ name := nm, kind := DeclarationKind.function,
           parameters := ps, returnType := rt2,
           hasDefaultImplementation := false }]
        { name := nm, kind := DeclarationKind.function,
          parameters := ps, returnType := rt1,
          hasDefaultImplementation := false } = []) ∧
    (∀ (nm : String) (ps : List Parameter) (rt1 rt2 : SemaType),
      semaIsSubType rt1 rt2 = true →
      semaIsSubType rt2 rt1 = false →
      checkMemberConformance
        [{ name := nm, kind := DeclarationKind.function,
           parameters := ps, returnType := rt2,
           hasDefaultImplementation := false }]
        { name := nm, kind := DeclarationKind.function,
          parameters := ps, returnType := rt1,
          hasDefaultImplementation := false } =
        [CheckerError.conformanceError nm]) := by
  refine ⟨?_, ?_, ?_, ?_⟩
  · intro nm lbl pname1 pname2 pt rt
    simp [checkMemberConformance, memberSatisfies, parametersMatch,
      semaIsSubType_refl]
  · intro nm lbl pn pt1 pt2 rt hne _
    simp [checkMemberConformance, memberSatisfies, parametersMatch, hne]
  · intro nm ps rt1 rt2 hsub
    simp [checkMemberConformance, memberSatisfies, parametersMatch_refl,
      hsub]
  · intro nm ps rt1 rt2 _ hnot
    simp [checkMemberConformance, memberSatisfies, parametersMatch_refl,
      hnot]

/-- Witness for claim C4 at the spec's seed scenario types: a composite
return type `R` against the interface return type restricted to `RI` is
accepted, the swapped (supertype) returns yield exactly one `Conformance`
error, and a strict-subtype parameter type yields exactly one `Conformance`
error. -/
theorem conformance_function_subtyping_witness :
    checkMemberConformance
      [{ name := "get", kind := DeclarationKind.function, parameters := [],
         returnType := exampleResourceType,
         hasDefaultImplementation := false }]
      { name := "get", kind := DeclarationKind.function, parameters := [],
        returnType := exampleIntersectionType,
        hasDefaultImplementation := false } = [] ∧
    checkMemberConformance
      [{ name := "get", kind := DeclarationKind.function, parameters := [],
         returnType := exampleIntersectionType,
         hasDefaultImplementation := false }]
      { name := "get", kind := DeclarationKind.function, parameters := [],
        returnType := exampleResourceType,
        hasDefaultImplementation := false } =
      [CheckerError.conformanceError "get"] ∧
    checkMemberConformance
      [{ name := "set", kind := DeclarationKind.function,
         parameters := [⟨"r", "r", exampleResourceType⟩],
         returnType := SemaType.primitive "Void",
         hasDefaultImplementation := false }]
      { name := "set", kind := DeclarationKind.function,
        parameters := [⟨"r", "r", exampleIntersectionType⟩],
        returnType := SemaType.primitive "Void",
        hasDefaultImplementation := false } =
      [CheckerError.conformanceError "set"] :=
  ⟨conformance_function_subtyping.2.2.1 "get" [] exampleIntersectionType
      exampleResourceType (by decide),
   conformance_function_subtyping.2.2.2 "get" [] exampleResourceType
      exampleIntersectionType (by decide) (by decide),
   conformance_function_subtyping.2.1 "set" "r" "r"
      exampleIntersectionType exampleResourceType
      (SemaType.primitive "Void") (by decide) (Or.inr (by decide))⟩

/-- Claim C8: events are exempt from conformance checking — a composite
checks successfully against interface members that are all events, whatever
members (in particular an event of the same name with different parameters)
the composite declares. -/
theorem event_members_exempt_from_conformance
    (compositeMembers interfaceMembers : List Member)
    (h : ∀ im ∈ interfaceMembers, im.kind = DeclarationKind.event) :
    checkConformance compositeMembers interfaceMembers = [] := by
  induction interfaceMembers with
  | nil => rfl
  | cons im ims ih =>
    have him := h im (by simp)
    have hims : ∀ im2 ∈ ims, im2.kind = DeclarationKind.event := by
      intro im2 hmem
      exact h im2 (by simp [hmem])
    simp [checkConformance, checkMemberConformance, him] at ih ⊢
    exact ih hims

/-- Witness for claim C8 at the spec's seed scenario: interface
`CI` declaring `event E(a: Int)` and composite `C` declaring
`event E(b: String)` check with no errors. -/
theorem event_members_exempt_from_conformance_witness :
    checkConformance
      [{ name := "E", kind := DeclarationKind.event,
         parameters := [⟨"b", "b", SemaType.primitive "String"⟩],
         returnType := SemaType.primitive "Void",
         hasDefaultImplementation := false }]
      [{ name := "E", kind := DeclarationKind.event,
         parameters := [⟨"a", "a", SemaType.primitive "Int"⟩],
         returnType := SemaType.primitive "Void",
         hasDefaultImplementation := false }] = [] :=
  event_members_exempt_from_conformance _ _ (by decide)
